import Mathlib

set_option maxRecDepth 100000

/-!
Verification of the Sega segacrp2 ROM decryption engine
(src/devices/machine/segacrp2_device.cpp).

The engine iterates every address `a` in `0 .. 0x7FFF`, derives a 6-bit
`row` from address bits 14, 12, 9, 6, 3, 0 via `bitswap<6>`, and writes
  decrypted[a] = bitswap<8>(src, 7, t0, 5, t1, 3, t2, 1, t3) ^ xor_table[2*row]
  rom[a]       = bitswap<8>(src, 7, u0, 5, u1, 3, u2, 1, u3) ^ xor_table[2*row+1]
where `src = rom[a]` is read before either write, and the tuples
`(t0,t1,t2,t3)`, `(u0,u1,u2,u3)` come from a fixed 24-entry `swaptable`
indexed by `swap_table[2*row]` and `swap_table[2*row+1]`.

We embed the byte arrays as functions `Nat → Nat` holding byte values and
model the in-place loop as a fold over `List.range 0x8000`. Key tables are
embedded as `List Nat`; the pointer offset `xor_table + shift` used by the
`sega_decode_317` sub-family is modelled by `List.drop shift`.
-/

/-- The `BIT(x, n)` macro of the source tree: `(x >> n) & 1`. -/
def natBit (x n : Nat) : Nat := (x >>> n) &&& 1

/-- The `bitswap<8>(val, b7, b6, b5, b4, b3, b2, b1, b0)` helper of the
source tree: output bit 7 is bit `b7` of `val`, output bit 6 is bit `b6`
of `val`, and so on down to output bit 0. -/
def bitswap8 (val b7 b6 b5 b4 b3 b2 b1 b0 : Nat) : Nat :=
  natBit val b7 <<< 7 ||| natBit val b6 <<< 6 ||| natBit val b5 <<< 5 |||
  natBit val b4 <<< 4 ||| natBit val b3 <<< 3 ||| natBit val b2 <<< 2 |||
  natBit val b1 <<< 1 ||| natBit val b0

/-- The `bitswap<6>(val, b5, b4, b3, b2, b1, b0)` helper of the source
tree, used to build the row selector. -/
def bitswap6 (val b5 b4 b3 b2 b1 b0 : Nat) : Nat :=
  natBit val b5 <<< 5 ||| natBit val b4 <<< 4 ||| natBit val b3 <<< 3 |||
  natBit val b2 <<< 2 ||| natBit val b1 <<< 1 ||| natBit val b0

/-- One row of the `swaptable[24][4]` constant inside `decode`. -/
structure SwapEntry where
  p0 : Nat
  p1 : Nat
  p2 : Nat
  p3 : Nat
deriving DecidableEq, Repr

/-- The fixed 24-entry permutation catalogue `swaptable` inside `decode`. -/
def swaptable : List SwapEntry := [
  ⟨6, 4, 2, 0⟩, ⟨4, 6, 2, 0⟩, ⟨2, 4, 6, 0⟩, ⟨0, 4, 2, 6⟩,
  ⟨6, 2, 4, 0⟩, ⟨6, 0, 2, 4⟩, ⟨6, 4, 0, 2⟩, ⟨2, 6, 4, 0⟩,
  ⟨4, 2, 6, 0⟩, ⟨4, 6, 0, 2⟩, ⟨6, 0, 4, 2⟩, ⟨0, 6, 4, 2⟩,
  ⟨4, 0, 6, 2⟩, ⟨0, 4, 6, 2⟩, ⟨6, 2, 0, 4⟩, ⟨2, 6, 0, 4⟩,
  ⟨0, 6, 2, 4⟩, ⟨2, 0, 6, 4⟩, ⟨0, 2, 6, 4⟩, ⟨4, 2, 0, 6⟩,
  ⟨2, 4, 0, 6⟩, ⟨4, 0, 2, 6⟩, ⟨2, 0, 4, 6⟩, ⟨0, 2, 4, 6⟩]

/-- Row selection: `bitswap<6>(a, 14, 12, 9, 6, 3, 0)` from `decode`. -/
def rowOf (a : Nat) : Nat := bitswap6 a 14 12 9 6 3 0

/-- The permutation step applied by `decode` for catalogue entry `t`:
`bitswap<8>(src, 7, tbl[0], 5, tbl[1], 3, tbl[2], 1, tbl[3])`. -/
def permuteBits (t : SwapEntry) (src : Nat) : Nat :=
  bitswap8 src 7 t.p0 5 t.p1 3 t.p2 1 t.p3

/-- One output byte of `decode`: permute `src` by the catalogue entry
selected by `swap_table[idx]`, then XOR with `xor_table[idx]`. -/
def permuteXor (xt st : List Nat) (idx src : Nat) : Nat :=
  permuteBits (swaptable.getD (st.getD idx 0) ⟨0, 0, 0, 0⟩) src ^^^ xt.getD idx 0

/-- The two byte buffers `decode` works on. -/
structure DecodeState where
  rom : Nat → Nat
  decrypted : Nat → Nat

/-- One iteration of the `for` loop in `decode`: read `src = rom[a]`,
write `decrypted[a]` (opcode path, index `2*row`), then write `rom[a]`
in place (data path, index `2*row+1`), both from the saved `src`. -/
def decodeStep (xt st : List Nat) (s : DecodeState) (a : Nat) : DecodeState :=
  let src := s.rom a
  let row := rowOf a
  let s1 : DecodeState :=
    ⟨s.rom, Function.update s.decrypted a (permuteXor xt st (2 * row) src)⟩
  ⟨Function.update s1.rom a (permuteXor xt st (2 * row + 1) src), s1.decrypted⟩

/-- The engine `decode(rom, decrypted, xor_table, swap_table)`:
the loop `for (a = 0x0000; a < 0x8000; a++)`. -/
def decode (rom decrypted : Nat → Nat) (xt st : List Nat) : DecodeState :=
  (List.range 0x8000).foldl (decodeStep xt st) ⟨rom, decrypted⟩

/-- XOR table of `nec_315_5136_device::decrypt` (part 315-5136). -/
def xor_table_5136 : List Nat := [
  0, 64, 16, 80, 4, 68, 20, 84, 1, 65, 17, 81, 5, 69, 21, 85,
  0, 64, 16, 80, 4, 68, 20, 84, 1, 65, 17, 81, 5, 69, 21, 85,
  0, 64, 16, 80, 4, 68, 20, 84, 1, 65, 17, 81, 5, 69, 21, 85,
  0, 64, 16, 80, 4, 68, 20, 84, 1, 65, 17, 81, 5, 69, 21, 85,
  80, 16, 68, 4, 84, 20, 65, 1, 81, 17, 69, 5, 85, 21, 64, 0,
  80, 16, 68, 4, 84, 20, 65, 1, 81, 17, 69, 5, 85, 21, 64, 0,
  80, 16, 68, 4, 84, 20, 65, 1, 81, 17, 69, 5, 85, 21, 64, 0,
  80, 16, 68, 4, 84, 20, 65, 1, 81, 17, 69, 5, 85, 21, 64, 0]

/-- Selector table of `nec_315_5136_device::decrypt`. -/
def swap_table_5136 : List Nat := [
  20, 20, 20, 20, 20, 20, 20, 20, 20, 20, 20, 20, 20, 20, 20, 20,
  21, 21, 21, 21, 21, 21, 21, 21, 21, 21, 21, 21, 21, 21, 21, 21,
  22, 22, 22, 22, 22, 22, 22, 22, 22, 22, 22, 22, 22, 22, 22, 22,
  23, 23, 23, 23, 23, 23, 23, 23, 23, 23, 23, 23, 23, 23, 23, 23,
  0, 0, 0, 0, 0, 0, 0, 0, 0, 0, 0, 0, 0, 0, 1, 1,
  1, 1, 1, 1, 1, 1, 1, 1, 1, 1, 1, 1, 1, 1, 2, 2,
  2, 2, 2, 2, 2, 2, 2, 2, 2, 2, 2, 2, 2, 2, 3, 3,
  3, 3, 3, 3, 3, 3, 3, 3, 3, 3, 3, 3, 3, 3, 4, 4]

/-- XOR table of `sega_315_5177_device::decrypt` (part 315-5177, also seen as 317-5000). -/
def xor_table_5177 : List Nat := [
  4, 84, 81, 21, 64, 68, 1, 81, 85, 16, 68, 65, 5, 85, 80, 20,
  65, 69, 0, 80, 84, 17, 69, 64, 4, 84, 81, 21, 64, 68, 1, 81,
  85, 16, 68, 65, 5, 85, 80, 20, 65, 69, 0, 80, 84, 17, 69, 64,
  4, 84, 81, 21, 64, 68, 1, 81, 85, 16, 68, 65, 5, 85, 80, 20,
  4, 84, 81, 21, 64, 68, 1, 81, 85, 16, 68, 65, 5, 85, 80, 20,
  65, 69, 0, 80, 84, 17, 69, 64, 4, 84, 81, 21, 64, 68, 1, 81,
  85, 16, 68, 65, 5, 85, 80, 20, 65, 69, 0, 80, 84, 17, 69, 64,
  4, 84, 81, 21, 64, 68, 1, 81, 85, 16, 68, 65, 5, 85, 80, 20]

/-- Selector table of `sega_315_5177_device::decrypt`. -/
def swap_table_5177 : List Nat := [
  0, 0, 0, 0, 1, 1, 1, 1, 1, 2, 2, 2, 2, 2, 3, 3,
  3, 3, 4, 4, 4, 4, 4, 5, 5, 5, 5, 5, 6, 6, 6, 6,
  6, 7, 7, 7, 7, 7, 8, 8, 8, 8, 9, 9, 9, 9, 9, 10,
  10, 10, 10, 10, 11, 11, 11, 11, 11, 12, 12, 12, 12, 12, 13, 13,
  8, 8, 8, 8, 9, 9, 9, 9, 9, 10, 10, 10, 10, 10, 11, 11,
  11, 11, 12, 12, 12, 12, 12, 13, 13, 13, 13, 13, 14, 14, 14, 14,
  14, 15, 15, 15, 15, 15, 16, 16, 16, 16, 17, 17, 17, 17, 17, 18,
  18, 18, 18, 18, 19, 19, 19, 19, 19, 20, 20, 20, 20, 20, 21, 21]

/-- XOR table of `sega_315_5176_device::decrypt` (part 315-5176). -/
def xor_table_5176 : List Nat := [
  68, 1, 81, 21, 64, 4, 84, 17, 69, 0, 80, 20, 65, 5, 85, 16,
  68, 1, 81, 21, 64, 4, 84, 17, 69, 0, 80, 20, 65, 5, 85, 16,
  68, 1, 81, 21, 64, 4, 84, 17, 69, 0, 80, 20, 65, 5, 85, 16,
  68, 1, 81, 21, 64, 4, 84, 17, 69, 0, 80, 20, 65, 5, 85, 16,
  68, 1, 81, 21, 64, 4, 84, 17, 69, 0, 80, 20, 65, 5, 85, 16,
  68, 1, 81, 21, 64, 4, 84, 17, 69, 0, 80, 20, 65, 5, 85, 16,
  68, 1, 81, 21, 64, 4, 84, 17, 69, 0, 80, 20, 65, 5, 85, 16,
  68, 1, 81, 21, 64, 4, 84, 17, 69, 0, 80, 20, 65, 5, 85, 16]

/-- Selector table of `sega_315_5176_device::decrypt`. -/
def swap_table_5176 : List Nat := [
  0, 0, 0, 0, 1, 1, 1, 1, 1, 2, 2, 2, 2, 2, 2, 3,
  3, 3, 3, 3, 4, 4, 4, 4, 4, 5, 5, 5, 5, 5, 5, 6,
  6, 6, 6, 6, 7, 7, 7, 7, 7, 8, 8, 8, 8, 8, 8, 9,
  9, 9, 9, 9, 10, 10, 10, 10, 10, 11, 11, 11, 11, 11, 11, 12,
  8, 8, 8, 8, 9, 9, 9, 9, 9, 10, 10, 10, 10, 10, 10, 11,
  11, 11, 11, 11, 12, 12, 12, 12, 12, 13, 13, 13, 13, 13, 13, 14,
  14, 14, 14, 14, 15, 15, 15, 15, 15, 16, 16, 16, 16, 16, 16, 17,
  17, 17, 17, 17, 18, 18, 18, 18, 18, 19, 19, 19, 19, 19, 19, 20]

/-- XOR table of `sega_315_5162_device::decrypt` (part 315-5162). -/
def xor_table_5162 : List Nat := [
  64, 16, 80, 4, 68, 20, 84, 1, 65, 17, 81, 5, 69, 21, 85, 0,
  64, 16, 80, 4, 68, 20, 84, 1, 65, 17, 81, 5, 69, 21, 85, 0,
  64, 16, 80, 4, 68, 20, 84, 1, 65, 17, 81, 5, 69, 21, 85, 0,
  64, 16, 80, 4, 68, 20, 84, 1, 65, 17, 81, 5, 69, 21, 85, 0,
  64, 16, 80, 4, 68, 20, 84, 1, 65, 17, 81, 5, 69, 21, 85, 0,
  64, 16, 80, 4, 68, 20, 84, 1, 65, 17, 81, 5, 69, 21, 85, 0,
  64, 16, 80, 4, 68, 20, 84, 1, 65, 17, 81, 5, 69, 21, 85, 0,
  64, 16, 80, 4, 68, 20, 84, 1, 65, 17, 81, 5, 69, 21, 85, 0]

/-- Selector table of `sega_315_5162_device::decrypt`. -/
def swap_table_5162 : List Nat := [
  4, 4, 4, 4, 4, 4, 4, 4, 4, 4, 4, 4, 4, 4, 4, 5,
  5, 5, 5, 5, 5, 5, 5, 5, 5, 5, 5, 5, 5, 5, 5, 6,
  6, 6, 6, 6, 6, 6, 6, 6, 6, 6, 6, 6, 6, 6, 6, 7,
  7, 7, 7, 7, 7, 7, 7, 7, 7, 7, 7, 7, 7, 7, 7, 8,
  8, 8, 8, 8, 8, 8, 8, 8, 8, 8, 8, 8, 8, 8, 8, 9,
  9, 9, 9, 9, 9, 9, 9, 9, 9, 9, 9, 9, 9, 9, 9, 10,
  10, 10, 10, 10, 10, 10, 10, 10, 10, 10, 10, 10, 10, 10, 10, 11,
  11, 11, 11, 11, 11, 11, 11, 11, 11, 11, 11, 11, 11, 11, 11, 12]

/-- XOR table of `sega_315_5178_device::decrypt` (part 315-5178). -/
def xor_table_5178 : List Nat := [
  0, 85, 69, 5, 17, 65, 1, 20, 68, 80, 16, 0, 85, 21, 5, 81,
  65, 1, 20, 68, 4, 16, 64, 85, 21, 5, 81, 17, 1, 84, 68, 4,
  16, 64, 0, 21, 69, 81, 17, 1, 84, 20, 4, 80, 64, 0, 21, 69,
  5, 17, 65, 84, 20, 4, 80, 16, 0, 85, 69, 5, 17, 65, 1, 20,
  0, 85, 69, 5, 17, 65, 1, 20, 68, 80, 16, 0, 85, 21, 5, 81,
  65, 1, 20, 68, 4, 16, 64, 85, 21, 5, 81, 17, 1, 84, 68, 4,
  16, 64, 0, 21, 69, 81, 17, 1, 84, 20, 4, 80, 64, 0, 21, 69,
  5, 17, 65, 84, 20, 4, 80, 16, 0, 85, 69, 5, 17, 65, 1, 20]

/-- Selector table of `sega_315_5178_device::decrypt`. -/
def swap_table_5178 : List Nat := [
  2, 3, 5, 7, 1, 3, 5, 7, 1, 3, 5, 7, 0, 2, 4, 6,
  0, 2, 4, 6, 0, 2, 4, 5, 7, 1, 3, 5, 7, 1, 3, 5,
  7, 1, 3, 4, 6, 0, 2, 4, 6, 0, 2, 4, 6, 8, 1, 3,
  5, 7, 1, 3, 5, 7, 1, 3, 5, 6, 0, 2, 4, 6, 0, 2,
  10, 11, 13, 15, 9, 11, 13, 15, 9, 11, 13, 15, 8, 10, 12, 14,
  8, 10, 12, 14, 8, 10, 12, 13, 15, 9, 11, 13, 15, 9, 11, 13,
  15, 9, 11, 12, 14, 8, 10, 12, 14, 8, 10, 12, 14, 16, 9, 11,
  13, 15, 9, 11, 13, 15, 9, 11, 13, 14, 8, 10, 12, 14, 8, 10]

/-- XOR table of `sega_315_5179_device::decrypt` (part 315-5179). -/
def xor_table_5179 : List Nat := [
  0, 69, 65, 20, 16, 85, 81, 1, 4, 64, 69, 17, 20, 80, 0, 5,
  65, 68, 16, 21, 81, 84, 4, 0, 69, 65, 20, 16, 85, 5, 1, 68,
  64, 21, 17, 84, 80, 0, 5, 65, 68, 16, 21, 81, 1, 4, 64, 69,
  17, 20, 80, 85, 5, 1, 68, 64, 21, 17, 84, 4, 0, 69, 65, 20,
  80, 0, 5, 65, 68, 16, 21, 81, 84, 4, 0, 69, 65, 20, 80, 85,
  5, 1, 68, 64, 21, 17, 84, 80, 0, 5, 65, 68, 16, 85, 81, 1,
  4, 64, 69, 17, 20, 80, 85, 5, 1, 68, 64, 21, 81, 84, 4, 0,
  69, 65, 20, 16, 85, 81, 1, 4, 64, 69, 17, 84, 80, 0, 5, 65]

/-- Selector table of `sega_315_5179_device::decrypt`. -/
def swap_table_5179 : List Nat := [
  8, 9, 11, 13, 15, 0, 2, 4, 6, 8, 9, 11, 13, 15, 1, 2,
  4, 6, 8, 9, 11, 13, 15, 1, 2, 4, 6, 8, 9, 11, 13, 15,
  1, 2, 4, 6, 8, 10, 11, 13, 15, 1, 2, 4, 6, 8, 10, 11,
  13, 15, 1, 2, 4, 6, 8, 10, 11, 13, 15, 1, 3, 4, 6, 8,
  7, 1, 2, 4, 6, 0, 1, 3, 5, 7, 1, 2, 4, 6, 0, 1,
  3, 5, 7, 1, 2, 4, 6, 0, 2, 3, 5, 7, 1, 2, 4, 6,
  0, 2, 3, 5, 7, 1, 2, 4, 6, 0, 2, 3, 5, 7, 1, 3,
  4, 6, 0, 2, 3, 5, 7, 1, 3, 4, 6, 0, 2, 4, 5, 7]

/-- Shared 131-entry master XOR table of `sega_decode_317` (parts 317-0004 to 317-0007). -/
def xor_table_317 : List Nat := [
  4, 84, 68, 20, 21, 21, 81, 65, 65, 20, 16, 80, 21, 85, 84, 5,
  4, 65, 81, 1, 5, 16, 85, 81, 5, 5, 84, 17, 69, 5, 4, 20,
  16, 85, 1, 65, 81, 5, 85, 4, 69, 65, 85, 20, 69, 16, 4, 69,
  85, 80, 64, 0, 17, 69, 21, 0, 1, 0, 64, 0, 1, 69, 17, 0,
  69, 0, 68, 84, 64, 4, 5, 21, 21, 16, 21, 4, 1, 5, 80, 17,
  0, 68, 68, 4, 4, 1, 80, 5, 81, 0, 69, 68, 80, 21, 84, 64,
  65, 69, 64, 16, 20, 21, 64, 81, 80, 80, 69, 0, 16, 21, 5, 81,
  80, 68, 1, 21, 64, 4, 1, 68, 80, 68, 80, 80, 80, 16, 68, 4,
  64, 4, 16]

/-- Shared 131-entry master selector table of `sega_decode_317`. -/
def swap_table_317 : List Nat := [
  7, 7, 12, 1, 18, 11, 8, 23, 21, 17, 0, 23, 22, 0, 21, 15,
  13, 19, 21, 20, 20, 12, 13, 10, 20, 0, 14, 18, 6, 18, 3, 5,
  5, 20, 20, 13, 8, 0, 20, 18, 4, 14, 8, 5, 17, 6, 22, 10,
  0, 21, 0, 1, 6, 11, 17, 9, 17, 3, 9, 21, 0, 4, 16, 1,
  13, 17, 21, 5, 3, 7, 2, 16, 18, 13, 6, 19, 11, 23, 3, 20,
  3, 2, 18, 10, 18, 23, 19, 23, 3, 15, 0, 10, 5, 12, 0, 0,
  11, 22, 8, 14, 8, 6, 1, 15, 7, 11, 2, 17, 10, 15, 8, 21,
  10, 0, 2, 6, 1, 1, 3, 1, 12, 18, 16, 5, 0, 15, 17, 15,
  10, 20, 1]

/-- Model of `nec_315_5136_device::decrypt`. -/
def nec_315_5136_decrypt (rom dec : Nat → Nat) : DecodeState :=
  decode rom dec xor_table_5136 swap_table_5136

/-- Model of `sega_315_5177_device::decrypt`. -/
def sega_315_5177_decrypt (rom dec : Nat → Nat) : DecodeState :=
  decode rom dec xor_table_5177 swap_table_5177

/-- Model of `sega_315_5176_device::decrypt`. -/
def sega_315_5176_decrypt (rom dec : Nat → Nat) : DecodeState :=
  decode rom dec xor_table_5176 swap_table_5176

/-- Model of `sega_315_5162_device::decrypt`. -/
def sega_315_5162_decrypt (rom dec : Nat → Nat) : DecodeState :=
  decode rom dec xor_table_5162 swap_table_5162

/-- Model of `sega_315_5178_device::decrypt`. -/
def sega_315_5178_decrypt (rom dec : Nat → Nat) : DecodeState :=
  decode rom dec xor_table_5178 swap_table_5178

/-- Model of `sega_315_5179_device::decrypt`. -/
def sega_315_5179_decrypt (rom dec : Nat → Nat) : DecodeState :=
  decode rom dec xor_table_5179 swap_table_5179

/-- Model of `sega_decode_317(rom, decrypted, shift)`: calls `decode` with
`xor_table + shift` and `swap_table + shift`, modelled by `List.drop`. -/
def sega_decode_317 (rom dec : Nat → Nat) (shift : Nat) : DecodeState :=
  decode rom dec (xor_table_317.drop shift) (swap_table_317.drop shift)

/-- Model of `sega_317_0004_device::decrypt` (shift 0). -/
def sega_317_0004_decrypt (rom dec : Nat → Nat) : DecodeState :=
  sega_decode_317 rom dec 0

/-- Model of `sega_317_0005_device::decrypt` (shift 1). -/
def sega_317_0005_decrypt (rom dec : Nat → Nat) : DecodeState :=
  sega_decode_317 rom dec 1

/-- Model of `sega_317_0006_device::decrypt` (shift 2). -/
def sega_317_0006_decrypt (rom dec : Nat → Nat) : DecodeState :=
  sega_decode_317 rom dec 2

/-- Model of `sega_317_0007_device::decrypt` (shift 3). -/
def sega_317_0007_decrypt (rom dec : Nat → Nat) : DecodeState :=
  sega_decode_317 rom dec 3

/-- The variant key catalogue: the effective (XOR table, selector table)
pair of every device type defined in the source file, in the order of the
DEFINE_DEVICE_TYPE lines: NEC_315_5136, SEGA_315_5179, SEGA_315_5178,
SEGA_315_5177, SEGA_315_5176, SEGA_315_5162, SEGA_317_0004, SEGA_317_0005,
SEGA_317_0006, SEGA_317_0007. -/
def variants : List (List Nat × List Nat) := [
  (xor_table_5136, swap_table_5136),
  (xor_table_5179, swap_table_5179),
  (xor_table_5178, swap_table_5178),
  (xor_table_5177, swap_table_5177),
  (xor_table_5176, swap_table_5176),
  (xor_table_5162, swap_table_5162),
  (xor_table_317.drop 0, swap_table_317.drop 0),
  (xor_table_317.drop 1, swap_table_317.drop 1),
  (xor_table_317.drop 2, swap_table_317.drop 2),
  (xor_table_317.drop 3, swap_table_317.drop 3)]

/-! ## Claim-worded output formulas

The following definitions transcribe the wording of the specification
(section 4.2) rather than the source, to be compared with the embedding.
-/

/-- Written from the spec wording: `row` is the 6-bit value packed from
address bits 14, 12, 9, 6, 3, 0 (bit 14 most significant of the six). -/
def specRow (a : Nat) : Nat :=
  natBit a 14 <<< 5 ||| natBit a 12 <<< 4 ||| natBit a 9 <<< 3 |||
  natBit a 6 <<< 2 ||| natBit a 3 <<< 1 ||| natBit a 0

/-- Written from the spec wording: keep bits 7, 5, 3, 1 of `src` unchanged
in place; set output bit 6 to bit `p0` of `src`, bit 4 to bit `p1`, bit 2
to bit `p2`, bit 0 to bit `p3`. -/
def specPermute (t : SwapEntry) (src : Nat) : Nat :=
  natBit src 7 <<< 7 ||| natBit src 5 <<< 5 ||| natBit src 3 <<< 3 |||
  natBit src 1 <<< 1 |||
  (natBit src t.p0 <<< 6 ||| natBit src t.p1 <<< 4 |||
   natBit src t.p2 <<< 2 ||| natBit src t.p3)

/-- Written from the spec wording: the opcode output byte, permuted by the
catalogue entry at index `selectorTable[2*row]` and XORed with
`xorTable[2*row]`. -/
def specOpcodeByte (xt st : List Nat) (a src : Nat) : Nat :=
  specPermute (swaptable.getD (st.getD (2 * specRow a) 0) ⟨0, 0, 0, 0⟩) src ^^^
    xt.getD (2 * specRow a) 0

/-- Written from the spec wording: the data output byte, the identical
procedure using `selectorTable[2*row+1]` and `xorTable[2*row+1]`. -/
def specDataByte (xt st : List Nat) (a src : Nat) : Nat :=
  specPermute (swaptable.getD (st.getD (2 * specRow a + 1) 0) ⟨0, 0, 0, 0⟩) src ^^^
    xt.getD (2 * specRow a + 1) 0

/-! ## Basic properties of the loop -/

theorem decodeStep_ne (xt st : List Nat) (s : DecodeState) (a x : Nat) (h : x ≠ a) :
    (decodeStep xt st s a).rom x = s.rom x ∧
    (decodeStep xt st s a).decrypted x = s.decrypted x := by
  unfold decodeStep
  simp [Function.update_noteq h]

theorem foldl_decodeStep_not_mem (xt st : List Nat) (l : List Nat) (a : Nat)
    (ha : a ∉ l) :
    ∀ s : DecodeState,
      (l.foldl (decodeStep xt st) s).rom a = s.rom a ∧
      (l.foldl (decodeStep xt st) s).decrypted a = s.decrypted a := by
  induction l with
  | nil => intro s; exact ⟨rfl, rfl⟩
  | cons b t ih =>
    intro s
    have hab : a ≠ b := fun h => ha (h ▸ List.mem_cons_self b t)
    have hat : a ∉ t := fun h => ha (List.mem_cons_of_mem b h)
    rw [List.foldl_cons]
    rcases ih hat (decodeStep xt st s b) with ⟨h1, h2⟩
    rcases decodeStep_ne xt st s b a hab with ⟨h3, h4⟩
    exact ⟨h1.trans h3, h2.trans h4⟩

theorem foldl_decodeStep_mem (xt st : List Nat) (l : List Nat) (hnd : l.Nodup)
    (a : Nat) (ha : a ∈ l) :
    ∀ s : DecodeState,
      (l.foldl (decodeStep xt st) s).decrypted a =
        permuteXor xt st (2 * rowOf a) (s.rom a) ∧
      (l.foldl (decodeStep xt st) s).rom a =
        permuteXor xt st (2 * rowOf a + 1) (s.rom a) := by
  induction l with
  | nil => cases ha
  | cons b t ih =>
    intro s
    rw [List.foldl_cons]
    rcases List.nodup_cons.mp hnd with ⟨hbt, hnt⟩
    rcases List.mem_cons.mp ha with hab | hat
    · subst hab
      rcases foldl_decodeStep_not_mem xt st t a hbt (decodeStep xt st s a) with ⟨h1, h2⟩
      constructor
      · rw [h2]; unfold decodeStep; simp
      · rw [h1]; unfold decodeStep; simp
    · have hab : a ≠ b := fun h => hbt (h ▸ hat)
      rcases ih hnt hat (decodeStep xt st s b) with ⟨h1, h2⟩
      rcases decodeStep_ne xt st s b a hab with ⟨h3, _⟩
      rw [h3] at h1 h2
      exact ⟨h1, h2⟩

/-- Closed form of one call of `decode` at an in-range address: the opcode
output comes from index `2*row`, the in-place data output from `2*row+1`,
both applied to the original byte `rom a`. -/
theorem decode_closed_form (rom dec : Nat → Nat) (xt st : List Nat) (a : Nat)
    (ha : a < 0x8000) :
    (decode rom dec xt st).decrypted a = permuteXor xt st (2 * rowOf a) (rom a) ∧
    (decode rom dec xt st).rom a = permuteXor xt st (2 * rowOf a + 1) (rom a) := by
  unfold decode
  exact foldl_decodeStep_mem xt st (List.range 0x8000) (List.nodup_range _) a
    (List.mem_range.mpr ha) ⟨rom, dec⟩

/-- Addresses outside `0 .. 0x7FFF` are never touched by the loop. -/
theorem decode_out_of_range (rom dec : Nat → Nat) (xt st : List Nat) (a : Nat)
    (ha : ¬ a < 0x8000) :
    (decode rom dec xt st).rom a = rom a ∧
    (decode rom dec xt st).decrypted a = dec a := by
  unfold decode
  exact foldl_decodeStep_not_mem xt st (List.range 0x8000) a
    (fun h => ha (List.mem_range.mp h)) ⟨rom, dec⟩

/-! ## Arithmetic helpers -/

theorem natBit_le_one (x n : Nat) : natBit x n ≤ 1 := by
  unfold natBit
  rw [Nat.and_one_is_mod]
  exact Nat.le_of_lt_succ (Nat.mod_lt _ (by norm_num))

theorem rowOf_lt (a : Nat) : rowOf a < 64 := by
  have h5 := natBit_le_one a 14
  have h4 := natBit_le_one a 12
  have h3 := natBit_le_one a 9
  have h2 := natBit_le_one a 6
  have h1 := natBit_le_one a 3
  have h0 := natBit_le_one a 0
  unfold rowOf bitswap6
  have lt : ∀ x k : Nat, x ≤ 1 → k ≤ 5 → x <<< k < 2 ^ 6 := by
    intro x k hx hk
    rw [Nat.shiftLeft_eq]
    calc x * 2 ^ k ≤ 1 * 2 ^ 5 := by
          exact Nat.mul_le_mul hx (Nat.pow_le_pow_right (by norm_num) hk)
      _ < 2 ^ 6 := by norm_num
  have h := Nat.or_lt_two_pow
    (Nat.or_lt_two_pow
      (Nat.or_lt_two_pow
        (Nat.or_lt_two_pow
          (Nat.or_lt_two_pow (lt _ 5 h5 (by norm_num)) (lt _ 4 h4 (by norm_num)))
          (lt _ 3 h3 (by norm_num)))
        (lt _ 2 h2 (by norm_num)))
      (lt _ 1 h1 (by norm_num)))
    (by
      show natBit a 0 < 2 ^ 6
      calc natBit a 0 ≤ 1 := h0
        _ < 2 ^ 6 := by norm_num)
  calc bitswap6 a 14 12 9 6 3 0 < 2 ^ 6 := h
    _ = 64 := by norm_num

theorem specRow_eq_rowOf (a : Nat) : specRow a = rowOf a := rfl

theorem specPermute_eq_permuteBits (t : SwapEntry) (src : Nat) :
    specPermute t src = permuteBits t src := by
  unfold specPermute permuteBits bitswap8
  ac_rfl

/-! ## Claims -/

/-- C1: for every address `a` in `0..0x7FFF`, the opcode output
`decrypted[a]` is computed from the still-encrypted byte `src = rom[a]`
as follows: `row` is the 6-bit value packed from address bits 14, 12, 9,
6, 3, 0 of `a`; with `(p0,p1,p2,p3)` the permutation-catalogue entry at
index `selectorTable[2*row]`, the output byte keeps bits 7, 5, 3, 1 of
`src` unchanged in place, sets output bit 6 to bit `p0` of `src`, bit 4
to bit `p1`, bit 2 to bit `p2`, bit 0 to bit `p3`, and is then XORed
with `xorTable[2*row]` before being stored into `decrypted[a]`. -/
theorem opcode_path_matches_spec (xt st : List Nat) (rom dec : Nat → Nat)
    (a : Nat) (ha : a < 0x8000) :
    (decode rom dec xt st).decrypted a = specOpcodeByte xt st a (rom a) := by
  rw [(decode_closed_form rom dec xt st a ha).1]
  unfold specOpcodeByte permuteXor
  rw [specRow_eq_rowOf, specPermute_eq_permuteBits]

theorem opcode_path_matches_spec_witness :
    (0 : Nat) < 0x8000 ∧
    (decode (fun _ => 0xAA) (fun _ => 0) xor_table_5136 swap_table_5136).decrypted 0 =
      specOpcodeByte xor_table_5136 swap_table_5136 0 0xAA :=
  ⟨by decide,
   opcode_path_matches_spec xor_table_5136 swap_table_5136
     (fun _ => 0xAA) (fun _ => 0) 0 (by decide)⟩

/-- C2: for every address `a` in `0..0x7FFF`, the data output written back
into `rom[a]` is produced by the identical permute-then-XOR procedure but
using `selectorTable[2*row+1]` and `xorTable[2*row+1]`, applied to the same
original pre-call byte `src = rom[a]`: `src` is read before `rom[a]` is
overwritten, so the in-place data decoding never operates on an already
decoded opcode byte. -/
theorem data_path_matches_spec (xt st : List Nat) (rom dec : Nat → Nat)
    (a : Nat) (ha : a < 0x8000) :
    (decode rom dec xt st).rom a = specDataByte xt st a (rom a) := by
  rw [(decode_closed_form rom dec xt st a ha).2]
  unfold specDataByte permuteXor
  rw [specRow_eq_rowOf, specPermute_eq_permuteBits]

theorem data_path_matches_spec_witness :
    (0 : Nat) < 0x8000 ∧
    (decode (fun _ => 0xAA) (fun _ => 0) xor_table_5136 swap_table_5136).rom 0 =
      specDataByte xor_table_5136 swap_table_5136 0 0xAA :=
  ⟨by decide,
   data_path_matches_spec xor_table_5136 swap_table_5136
     (fun _ => 0xAA) (fun _ => 0) 0 (by decide)⟩

/-- C3: the permutation catalogue has exactly 24 entries; every entry is a
4-tuple whose components are exactly the four distinct values {0,2,4,6} in
some order, and the 24 tuples are pairwise distinct, so the catalogue
enumerates all 24 permutations of {0,2,4,6}. -/
theorem swaptable_enumerates_permutations :
    swaptable.length = 24 ∧
    (∀ e ∈ swaptable, List.Perm [e.p0, e.p1, e.p2, e.p3] [0, 2, 4, 6]) ∧
    swaptable.Nodup := by
  refine ⟨by decide, by decide, by decide⟩

theorem swaptable_enumerates_permutations_witness :
    (⟨6, 4, 2, 0⟩ : SwapEntry) ∈ swaptable ∧
    List.Perm [(6 : Nat), 4, 2, 0] [0, 2, 4, 6] :=
  ⟨List.mem_cons_self _ _,
   swaptable_enumerates_permutations.2.1 ⟨6, 4, 2, 0⟩ (List.mem_cons_self _ _)⟩

/-- C9: the permutation-catalogue entry at index 0 is the tuple (6,4,2,0),
and the even-bit permutation it specifies is a true involution: applying
it twice to any byte yields the byte again. -/
theorem swap_entry_zero_involution (b : Nat) (hb : b < 256) :
    swaptable.getD 0 ⟨0, 0, 0, 0⟩ = ⟨6, 4, 2, 0⟩ ∧
    permuteBits (swaptable.getD 0 ⟨0, 0, 0, 0⟩)
      (permuteBits (swaptable.getD 0 ⟨0, 0, 0, 0⟩) b) = b := by
  revert hb
  revert b
  decide

theorem swap_entry_zero_involution_witness :
    (0xAB : Nat) < 256 ∧
    (swaptable.getD 0 ⟨0, 0, 0, 0⟩ = ⟨6, 4, 2, 0⟩ ∧
     permuteBits (swaptable.getD 0 ⟨0, 0, 0, 0⟩)
       (permuteBits (swaptable.getD 0 ⟨0, 0, 0, 0⟩) 0xAB) = 0xAB) :=
  ⟨by decide, swap_entry_zero_involution 0xAB (by decide)⟩

/-- C7: two addresses in `0..0x7FFF` that agree on address bits 0, 3, 6,
9, 12 and 14 (i.e. differ only in bits outside that set) produce the same
6-bit `row`, hence the same (permutation, XOR) pair on the opcode path and
on the data path. -/
theorem row_depends_only_on_selected_bits (a b : Nat)
    (ha : a < 0x8000) (hb : b < 0x8000)
    (e0 : natBit a 0 = natBit b 0) (e3 : natBit a 3 = natBit b 3)
    (e6 : natBit a 6 = natBit b 6) (e9 : natBit a 9 = natBit b 9)
    (e12 : natBit a 12 = natBit b 12) (e14 : natBit a 14 = natBit b 14) :
    rowOf a = rowOf b ∧
    ∀ xt st : List Nat, ∀ src : Nat,
      permuteXor xt st (2 * rowOf a) src = permuteXor xt st (2 * rowOf b) src ∧
      permuteXor xt st (2 * rowOf a + 1) src =
        permuteXor xt st (2 * rowOf b + 1) src := by
  have hrow : rowOf a = rowOf b := by
    unfold rowOf bitswap6
    rw [e0, e3, e6, e9, e12, e14]
  exact ⟨hrow, fun xt st src => by rw [hrow]; exact ⟨rfl, rfl⟩⟩

theorem row_depends_only_on_selected_bits_witness :
    ((2 : Nat) < 0x8000 ∧ (4 : Nat) < 0x8000 ∧
     natBit 2 0 = natBit 4 0 ∧ natBit 2 3 = natBit 4 3 ∧
     natBit 2 6 = natBit 4 6 ∧ natBit 2 9 = natBit 4 9 ∧
     natBit 2 12 = natBit 4 12 ∧ natBit 2 14 = natBit 4 14) ∧
    rowOf 2 = rowOf 4 := by
  refine ⟨by decide, ?_⟩
  exact (row_depends_only_on_selected_bits 2 4 (by decide) (by decide)
    (by decide) (by decide) (by decide) (by decide) (by decide) (by decide)).1

/-- C8: no cross-address coupling. If two initial ROM buffers agree
everywhere except possibly at address `a`, then after the call every entry
of `decrypted` and every post-call entry of `rom` other than the ones at
`a` coincide: the byte at address `a` only ever influences `decrypted[a]`
and the post-call `rom[a]`. -/
theorem no_cross_address_coupling (xt st : List Nat) (rom rom2 dec : Nat → Nat)
    (a : Nat) (ha : a < 0x8000) (hagree : ∀ x, x ≠ a → rom2 x = rom x) :
    ∀ b, b ≠ a →
      (decode rom2 dec xt st).decrypted b = (decode rom dec xt st).decrypted b ∧
      (decode rom2 dec xt st).rom b = (decode rom dec xt st).rom b := by
  intro b hb
  by_cases hlt : b < 0x8000
  · rcases decode_closed_form rom2 dec xt st b hlt with ⟨h1, h2⟩
    rcases decode_closed_form rom dec xt st b hlt with ⟨h3, h4⟩
    rw [h1, h2, h3, h4, hagree b hb]
    exact ⟨rfl, rfl⟩
  · rcases decode_out_of_range rom2 dec xt st b hlt with ⟨h1, h2⟩
    rcases decode_out_of_range rom dec xt st b hlt with ⟨h3, h4⟩
    rw [h1, h2, h3, h4, hagree b hb]
    exact ⟨rfl, rfl⟩

theorem no_cross_address_coupling_witness :
    ((5 : Nat) < 0x8000 ∧
     (∀ x : Nat, x ≠ 5 → (fun y => if y = 5 then 7 else 0) x = (fun _ => (0 : Nat)) x)) ∧
    ((decode (fun y => if y = 5 then 7 else 0) (fun _ => 0)
        xor_table_5136 swap_table_5136).decrypted 6 =
      (decode (fun _ => 0) (fun _ => 0) xor_table_5136 swap_table_5136).decrypted 6 ∧
     (decode (fun y => if y = 5 then 7 else 0) (fun _ => 0)
        xor_table_5136 swap_table_5136).rom 6 =
      (decode (fun _ => 0) (fun _ => 0) xor_table_5136 swap_table_5136).rom 6) :=
  ⟨⟨by decide, fun x hx => if_neg hx⟩,
   no_cross_address_coupling xor_table_5136 swap_table_5136
     (fun _ => 0) (fun y => if y = 5 then 7 else 0) (fun _ => 0) 5 (by decide)
     (fun x hx => if_neg hx) 6 (by decide)⟩

/-! ## Bit-level helpers for the odd-bit invariant -/

theorem natBit_eq_toNat (x n : Nat) : natBit x n = (x.testBit n).toNat := by
  unfold natBit
  rw [Nat.and_one_is_mod, Nat.shiftRight_eq_div_pow, Nat.testBit_to_div_mod]
  rcases Nat.mod_two_eq_zero_or_one (x / 2 ^ n) with h | h <;> rw [h] <;> rfl

theorem toNat_testBit (b : Bool) (j : Nat) :
    b.toNat.testBit j = (decide (j = 0) && b) := by
  cases b with
  | false => simp [Nat.zero_testBit]
  | true =>
    cases j with
    | zero => rfl
    | succ j => simp [Nat.testBit_add_one, Nat.zero_testBit]

theorem decide_toNat_mod_two (b : Bool) : decide (b.toNat % 2 = 1) = b := by
  cases b <;> rfl

/-- The permutation step of `decode` leaves the odd-numbered bits 7, 5, 3
and 1 of the source byte where they were. -/
theorem testBit_bitswap8_odd (src b7 b6 b5 b4 b3 b2 b1 b0 : Nat) :
    (bitswap8 src b7 b6 b5 b4 b3 b2 b1 b0).testBit 7 = src.testBit b7 ∧
    (bitswap8 src b7 b6 b5 b4 b3 b2 b1 b0).testBit 5 = src.testBit b5 ∧
    (bitswap8 src b7 b6 b5 b4 b3 b2 b1 b0).testBit 3 = src.testBit b3 ∧
    (bitswap8 src b7 b6 b5 b4 b3 b2 b1 b0).testBit 1 = src.testBit b1 := by
  unfold bitswap8
  refine ⟨?_, ?_, ?_, ?_⟩ <;>
    simp [Nat.testBit_or, Nat.testBit_shiftLeft, natBit_eq_toNat,
      decide_toNat_mod_two, toNat_testBit]

theorem oddbits_zero_of_and_mask (x : Nat) (h : x &&& 0xAA = 0) :
    x.testBit 1 = false ∧ x.testBit 3 = false ∧
    x.testBit 5 = false ∧ x.testBit 7 = false := by
  have h1 := congrArg (fun y => Nat.testBit y 1) h
  have h3 := congrArg (fun y => Nat.testBit y 3) h
  have h5 := congrArg (fun y => Nat.testBit y 5) h
  have h7 := congrArg (fun y => Nat.testBit y 7) h
  simp only [Nat.testBit_and] at h1 h3 h5 h7
  rw [show Nat.testBit 0xAA 1 = true from rfl, Bool.and_true,
    show Nat.testBit 0 1 = false from rfl] at h1
  rw [show Nat.testBit 0xAA 3 = true from rfl, Bool.and_true,
    show Nat.testBit 0 3 = false from rfl] at h3
  rw [show Nat.testBit 0xAA 5 = true from rfl, Bool.and_true,
    show Nat.testBit 0 5 = false from rfl] at h5
  rw [show Nat.testBit 0xAA 7 = true from rfl, Bool.and_true,
    show Nat.testBit 0 7 = false from rfl] at h7
  exact ⟨h1, h3, h5, h7⟩

/-- Generic odd-bit preservation: a `decode` call whose first 128 XOR
entries have no odd bits set agrees with the original byte on bits 1, 3,
5 and 7, on both output paths. -/
theorem decode_preserves_odd_bits (xt st : List Nat)
    (hx : ∀ i, i < 128 → xt.getD i 0 &&& 0xAA = 0)
    (rom dec : Nat → Nat) (a : Nat) (ha : a < 0x8000) (j : Nat)
    (hj : j = 1 ∨ j = 3 ∨ j = 5 ∨ j = 7) :
    ((decode rom dec xt st).decrypted a).testBit j = (rom a).testBit j ∧
    ((decode rom dec xt st).rom a).testBit j = (rom a).testBit j := by
  rcases decode_closed_form rom dec xt st a ha with ⟨h1, h2⟩
  rw [h1, h2]
  have hrow := rowOf_lt a
  have key : ∀ idx, idx < 128 →
      (permuteXor xt st idx (rom a)).testBit j = (rom a).testBit j := by
    intro idx hidx
    unfold permuteXor permuteBits
    rw [Nat.testBit_xor]
    rcases oddbits_zero_of_and_mask (xt.getD idx 0) (hx idx hidx) with ⟨z1, z3, z5, z7⟩
    rcases testBit_bitswap8_odd (rom a) 7
      (swaptable.getD (st.getD idx 0) ⟨0, 0, 0, 0⟩).p0 5
      (swaptable.getD (st.getD idx 0) ⟨0, 0, 0, 0⟩).p1 3
      (swaptable.getD (st.getD idx 0) ⟨0, 0, 0, 0⟩).p2 1
      (swaptable.getD (st.getD idx 0) ⟨0, 0, 0, 0⟩).p3 with ⟨b7, b5, b3, b1⟩
    rcases hj with h | h | h | h <;> subst h
    · rw [b1, z1, Bool.xor_false]
    · rw [b3, z3, Bool.xor_false]
    · rw [b5, z5, Bool.xor_false]
    · rw [b7, z7, Bool.xor_false]
  exact ⟨key (2 * rowOf a) (by omega), key (2 * rowOf a + 1) (by omega)⟩

/-- C10: every XOR-table entry of every catalogued variant (all 128
effective entries of each variant and all 131 entries of the master table
of the shift sub-family) has zero bits at the odd positions 7, 5, 3, 1;
consequently, for every address, both the opcode byte and the post-call
data byte agree with the original encrypted byte on bits 7, 5, 3 and 1 —
the transform only ever alters the even data bits. -/
theorem xor_tables_touch_only_even_bits :
    (∀ v ∈ variants, ∀ i, i < 128 → v.1.getD i 0 &&& 0xAA = 0) ∧
    (∀ i, i < 131 → xor_table_317.getD i 0 &&& 0xAA = 0) ∧
    (∀ xt st : List Nat, (xt, st) ∈ variants → ∀ rom dec : Nat → Nat,
      ∀ a, a < 0x8000 → ∀ j, (j = 1 ∨ j = 3 ∨ j = 5 ∨ j = 7) →
        ((decode rom dec xt st).decrypted a).testBit j = (rom a).testBit j ∧
        ((decode rom dec xt st).rom a).testBit j = (rom a).testBit j) := by
  have hall : ∀ v ∈ variants, ∀ i, i < 128 → v.1.getD i 0 &&& 0xAA = 0 := by decide
  refine ⟨hall, by decide, ?_⟩
  intro xt st hmem rom dec a ha j hj
  exact decode_preserves_odd_bits xt st (hall (xt, st) hmem) rom dec a ha j hj

theorem xor_tables_touch_only_even_bits_witness :
    ((xor_table_5136, swap_table_5136) ∈ variants ∧ (0 : Nat) < 0x8000) ∧
    (((decode (fun _ => 0xFF) (fun _ => 0) xor_table_5136 swap_table_5136).decrypted 0).testBit 1 =
        Nat.testBit 0xFF 1 ∧
     ((decode (fun _ => 0xFF) (fun _ => 0) xor_table_5136 swap_table_5136).rom 0).testBit 1 =
        Nat.testBit 0xFF 1) :=
  ⟨⟨List.mem_cons_self _ _, by decide⟩,
   xor_tables_touch_only_even_bits.2.2 xor_table_5136 swap_table_5136
     (List.mem_cons_self _ _) (fun _ => 0xFF) (fun _ => 0) 0 (by decide) 1
     (Or.inl rfl)⟩

/-- Generic shift relation on `List.getD`: dropping one more element
shifts every position left by one. -/
theorem getD_drop_succ (l : List Nat) (k i : Nat) :
    (l.drop (k + 1)).getD i 0 = (l.drop k).getD (i + 1) 0 := by
  have h : k + 1 + i = k + (i + 1) := by omega
  simp [List.getD_eq_getElem?_getD, List.getElem?_drop, h]

/-- C4: the shift-indexed sub-family members use, as their effective XOR
and selector tables, the 128-entry windows at byte offsets 0, 1, 2, 3
into one shared 131-entry master XOR table and one shared 131-entry
master selector table; for every `k` in {0,1,2} and position `i` in
`0..126`, the member at offset `k+1` has, at position `i`, the entry the
member at offset `k` has at position `i+1`. -/
theorem shift_family_window_relation :
    xor_table_317.length = 131 ∧ swap_table_317.length = 131 ∧
    (∀ rom dec, sega_317_0004_decrypt rom dec =
      decode rom dec (xor_table_317.drop 0) (swap_table_317.drop 0)) ∧
    (∀ rom dec, sega_317_0005_decrypt rom dec =
      decode rom dec (xor_table_317.drop 1) (swap_table_317.drop 1)) ∧
    (∀ rom dec, sega_317_0006_decrypt rom dec =
      decode rom dec (xor_table_317.drop 2) (swap_table_317.drop 2)) ∧
    (∀ rom dec, sega_317_0007_decrypt rom dec =
      decode rom dec (xor_table_317.drop 3) (swap_table_317.drop 3)) ∧
    (∀ k, k ≤ 2 → ∀ i, i ≤ 126 →
      (xor_table_317.drop (k + 1)).getD i 0 = (xor_table_317.drop k).getD (i + 1) 0 ∧
      (swap_table_317.drop (k + 1)).getD i 0 = (swap_table_317.drop k).getD (i + 1) 0) :=
  ⟨by decide, by decide,
   fun _ _ => rfl, fun _ _ => rfl, fun _ _ => rfl, fun _ _ => rfl,
   fun k _ i _ => ⟨getD_drop_succ xor_table_317 k i, getD_drop_succ swap_table_317 k i⟩⟩

theorem shift_family_window_relation_witness :
    ((0 : Nat) ≤ 2 ∧ (0 : Nat) ≤ 126) ∧
    ((xor_table_317.drop (0 + 1)).getD 0 0 = (xor_table_317.drop 0).getD (0 + 1) 0 ∧
     (swap_table_317.drop (0 + 1)).getD 0 0 = (swap_table_317.drop 0).getD (0 + 1) 0) :=
  ⟨⟨by decide, by decide⟩,
   shift_family_window_relation.2.2.2.2.2.2 0 (by decide) 0 (by decide)⟩

/-- C5: for every catalogued variant the decode precondition holds: each
of the 128 effective selector entries indexed by the loop (positions
`2*row` and `2*row+1` for `row` in `0..63`) is in range `0..23`, so the
permutation-catalogue lookup is always in bounds; the effective tables
present at least 128 entries, and a shift offset of at most 3 keeps the
128-entry window inside the 131-entry masters. -/
theorem selector_entries_in_range :
    (∀ v ∈ variants, ∀ i, i < 128 → v.2.getD i 0 < 24) ∧
    swaptable.length = 24 ∧
    (∀ v ∈ variants, 128 ≤ v.1.length ∧ 128 ≤ v.2.length) ∧
    (∀ k, k ≤ 3 → k + 128 ≤ xor_table_317.length ∧ k + 128 ≤ swap_table_317.length) ∧
    (∀ v ∈ variants, ∀ a, a < 0x8000 →
      v.2.getD (2 * rowOf a) 0 < swaptable.length ∧
      v.2.getD (2 * rowOf a + 1) 0 < swaptable.length) := by
  have h1 : ∀ v ∈ variants, ∀ i, i < 128 → v.2.getD i 0 < 24 := by decide
  have hlen : swaptable.length = 24 := by decide
  refine ⟨h1, hlen, by decide, by decide, ?_⟩
  intro v hv a ha
  have hrow := rowOf_lt a
  rw [hlen]
  exact ⟨h1 v hv (2 * rowOf a) (by omega), h1 v hv (2 * rowOf a + 1) (by omega)⟩

theorem selector_entries_in_range_witness :
    ((xor_table_5136, swap_table_5136) ∈ variants ∧ (0 : Nat) < 128 ∧ (0 : Nat) < 0x8000) ∧
    (xor_table_5136, swap_table_5136).2.getD 0 0 < 24 ∧
    ((xor_table_5136, swap_table_5136).2.getD (2 * rowOf 0) 0 < swaptable.length ∧
     (xor_table_5136, swap_table_5136).2.getD (2 * rowOf 0 + 1) 0 < swaptable.length) :=
  ⟨⟨List.mem_cons_self _ _, by decide, by decide⟩,
   selector_entries_in_range.1 (xor_table_5136, swap_table_5136)
     (List.mem_cons_self _ _) 0 (by decide),
   selector_entries_in_range.2.2.2.2 (xor_table_5136, swap_table_5136)
     (List.mem_cons_self _ _) 0 (by decide)⟩

/-- C6 counterexample: the source file defines ten device types (ten
DEFINE_DEVICE_TYPE lines), not eleven — the comment block lists eleven
part numbers only because 317-5000 shares the key of 315-5177 and has no
device type of its own. -/
theorem variant_catalogue_count_counterexample :
    variants.length = 10 ∧ ¬ variants.length = 11 := by
  refine ⟨by decide, by decide⟩

/-- C6 (amended): the variant key catalogue comprises 10 named hardware
variants, of which six supply a complete, independent 128-entry
XOR/selector table pair and four form the shared-master-table shift
sub-family; each variant is a trivial call-through to the single shared
decode routine with its own tables. -/
theorem variant_catalogue_structure :
    (variants.length = 10 ∧
     ([(xor_table_5136, swap_table_5136), (xor_table_5179, swap_table_5179),
       (xor_table_5178, swap_table_5178), (xor_table_5177, swap_table_5177),
       (xor_table_5176, swap_table_5176), (xor_table_5162, swap_table_5162)] :
       List (List Nat × List Nat)).Nodup ∧
     xor_table_5136.length = 128 ∧ swap_table_5136.length = 128 ∧
     xor_table_5179.length = 128 ∧ swap_table_5179.length = 128 ∧
     xor_table_5178.length = 128 ∧ swap_table_5178.length = 128 ∧
     xor_table_5177.length = 128 ∧ swap_table_5177.length = 128 ∧
     xor_table_5176.length = 128 ∧ swap_table_5176.length = 128 ∧
     xor_table_5162.length = 128 ∧ swap_table_5162.length = 128 ∧
     xor_table_317.length = 131 ∧ swap_table_317.length = 131) ∧
    (∀ rom dec, nec_315_5136_decrypt rom dec =
      decode rom dec xor_table_5136 swap_table_5136) ∧
    (∀ rom dec, sega_315_5179_decrypt rom dec =
      decode rom dec xor_table_5179 swap_table_5179) ∧
    (∀ rom dec, sega_315_5178_decrypt rom dec =
      decode rom dec xor_table_5178 swap_table_5178) ∧
    (∀ rom dec, sega_315_5177_decrypt rom dec =
      decode rom dec xor_table_5177 swap_table_5177) ∧
    (∀ rom dec, sega_315_5176_decrypt rom dec =
      decode rom dec xor_table_5176 swap_table_5176) ∧
    (∀ rom dec, sega_315_5162_decrypt rom dec =
      decode rom dec xor_table_5162 swap_table_5162) ∧
    (∀ rom dec, sega_317_0004_decrypt rom dec =
      decode rom dec (xor_table_317.drop 0) (swap_table_317.drop 0)) ∧
    (∀ rom dec, sega_317_0005_decrypt rom dec =
      decode rom dec (xor_table_317.drop 1) (swap_table_317.drop 1)) ∧
    (∀ rom dec, sega_317_0006_decrypt rom dec =
      decode rom dec (xor_table_317.drop 2) (swap_table_317.drop 2)) ∧
    (∀ rom dec, sega_317_0007_decrypt rom dec =
      decode rom dec (xor_table_317.drop 3) (swap_table_317.drop 3)) :=
  ⟨by decide,
   fun r1 d1 => rfl, fun r2 d2 => rfl, fun r3 d3 => rfl, fun r4 d4 => rfl,
   fun r5 d5 => rfl, fun r6 d6 => rfl, fun r7 d7 => rfl, fun r8 d8 => rfl,
   fun r9 d9 => rfl, fun r0 d0 => rfl⟩

